import Mathlib

/-!
Shallow embedding of `inst/scripts/crispr_benchmark/workflow/scripts/additional_statistics.py`.

The script aggregates CRISPR-perturbation results: for each input directory it
parses five fields from the path, loads a pathway edge-list CSV into an
undirected graph and two expression-count CSVs into a column-concatenated
table, and emits three records (pathway degree, expression mean, expression
standard deviation) per gene symbol.  The records are collected into a
DataFrame which is written as CSV before three boxplots are rendered.

Modelling conventions:
- Python strings are Lean `String`; `str.split` with a one-character
  separator is `splitChar` (structural recursion so the kernel can evaluate
  it; Lean's `String.splitOn` agrees but does not reduce).
- Machine floats are idealised: exact values are rationals, and since the
  standard deviation applies a square root, record values live in the
  inductive `Value` whose `sqrtV q` constructor denotes `Real.sqrt q`;
  `Value.interp` gives the real-number reading.  `NaN` is `Value.missing` /
  `Option.none`.
- File I/O is a `FileSystem` map from path strings to parsed file contents;
  a missing file is a `fileNotFound` error, matching propagated exceptions.
- Fallible Python code (tuple unpacking, `KeyError`, file errors) is
  `Except Err`.
- `pd.concat([df_wt, df_mt], axis=1)` is `concatTables`: column lists are
  appended, row labels take the union, absent entries become missing.
- `Series.mean`/`Series.std` follow the pandas defaults: missing entries are
  skipped, the standard deviation uses divisor `n - 1` (ddof = 1), and too
  few non-missing entries give `NaN` (`missing`), not an error.
-/

namespace AdditionalStatistics

/-- Errors the script can raise: tuple-unpacking failure on the input path,
a missing file, or a `KeyError` (absent column name or row label). -/
inductive Err where
  | unpackError : Err
  | fileNotFound : String → Err
  | keyError : String → Err
deriving DecidableEq

/-- The value slot of a record: `graph.degree[g]` (a Python int), an exact
rational (the mean), the square root of a rational (the standard deviation),
or `np.nan`. -/
inductive Value where
  | intV : ℕ → Value
  | ratV : ℚ → Value
  | sqrtV : ℚ → Value
  | missing : Value
deriving DecidableEq

/-- Real-number reading of a `Value`; `missing` (NaN) reads as `none`. -/
noncomputable def Value.interp : Value → Option ℝ
  | .intV n => some (n : ℝ)
  | .ratV q => some (q : ℝ)
  | .sqrtV q => some (Real.sqrt (q : ℝ))
  | .missing => none

/-- One record appended to `tmp`: the dict
`{'type': ..., 'gene': ..., 'source': ..., 'value': ...}`. -/
structure Record where
  type : String
  gene : String
  source : String
  value : Value
deriving DecidableEq

/-- A parsed pathway edge-list CSV as `pd.read_csv` sees it: a header row of
column names and the data rows (string cells). -/
structure PathwayCsv where
  header : List String
  rows : List (List String)

/-- An expression-count CSV after `pd.read_csv(..., index_col=0)`: column
names, and rows as (gene label, cell values); a missing cell is `none`. -/
structure ExprTable where
  cols : List String
  rows : List (String × List (Option ℚ))

/-- The files visible to the script, keyed by the exact path strings the
script interpolates. -/
structure FileSystem where
  pathwayCsv : String → Option PathwayCsv
  exprCsv : String → Option ExprTable

/-- Auxiliary splitter: `acc` holds the current segment's characters in
reverse. -/
def splitCharAux (sep : Char) : List Char → List Char → List String
  | [], acc => [String.mk acc.reverse]
  | c :: cs, acc =>
      if c = sep then String.mk acc.reverse :: splitCharAux sep cs []
      else splitCharAux sep cs (c :: acc)

/-- Python's `s.split(sep)` for a one-character separator: always returns at
least one (possibly empty) segment. -/
def splitChar (sep : Char) (s : String) : List String :=
  splitCharAux sep s.data []

/-- `*_, pathway, gene, study, treatment, deconf_param = parts`: Python
starred unpacking keeps the last five elements and raises `ValueError` when
fewer than five exist. -/
def parseSegs (l : List String) :
    Except Err (String × String × String × String × String) :=
  match l.reverse with
  | deconf :: treatment :: study :: gene :: pathway :: _ =>
      .ok (pathway, gene, study, treatment, deconf)
  | _ => .error .unpackError

/-- Parse an input directory string: split on `/` and unpack the last five
segments as `pathway, gene, study, treatment, deconf_param`. -/
def parsePath (dir_ : String) :
    Except Err (String × String × String × String × String) :=
  parseSegs (splitChar '/' dir_)

/-- `f'results/pathways/csv_files/{pathway}.csv'` -/
def pathwayPath (pathway : String) : String :=
  "results/pathways/csv_files/" ++ pathway ++ ".csv"

/-- `f'resources/data/{study}/Counts_Ctrl_{treatment}.csv'` -/
def wtPath (study treatment : String) : String :=
  "resources/data/" ++ study ++ "/Counts_Ctrl_" ++ treatment ++ ".csv"

/-- `f'resources/data/{study}/Counts_{gene}_{treatment}.csv'` -/
def mtPath (study gene treatment : String) : String :=
  "resources/data/" ++ study ++ "/Counts_" ++ gene ++ "_" ++ treatment ++ ".csv"

/-- Open a file: a missing file propagates as `fileNotFound`. -/
def getFile {α : Type} (files : String → Option α) (path : String) :
    Except Err α :=
  match files path with
  | some x => .ok x
  | none => .error (.fileNotFound path)

/-- `df[name]` on the edge-list frame: the column values when `name` is a
header entry, else a propagated `KeyError name`. -/
def getCol (csv : PathwayCsv) (name : String) : Except Err (List String) :=
  match csv.header.findIdx? (fun h => h = name) with
  | some i => .ok (csv.rows.map (fun r => r.getD i ""))
  | none => .error (.keyError name)

/-- `nx.from_pandas_edgelist(df, 'source', 'sink')`: the edge list zips the
`source` column with the `sink` column; every other column is ignored. -/
def edgesOf (csv : PathwayCsv) : Except Err (List (String × String)) := do
  let ss ← getCol csv "source"
  let ks ← getCol csv "sink"
  pure (ss.zip ks)

/-- Distinct neighbours of `g` in the undirected graph built from the edge
list (networkx `Graph` collapses duplicate and reversed edges). -/
def neighborList (es : List (String × String)) (g : String) : List String :=
  (es.filterMap (fun e =>
    if e.1 = g then some e.2
    else if e.2 = g then some e.1
    else none)).dedup

/-- `g in graph`: `g` is an endpoint of some edge (`from_pandas_edgelist`
creates nodes only from edge endpoints). -/
def memGraph (es : List (String × String)) (g : String) : Bool :=
  es.any (fun e => e.1 = g || e.2 = g)

/-- `graph.degree[g]`: number of distinct neighbours, a self-loop counting
twice, as in networkx. -/
def degree (es : List (String × String)) (g : String) : ℕ :=
  (neighborList es g).length + (if g ∈ neighborList es g then 1 else 0)

/-- Row lookup by index label. -/
def lookupRow (t : ExprTable) (g : String) : Option (List (Option ℚ)) :=
  (t.rows.find? (fun r => r.1 = g)).map (fun r => r.2)

/-- `pd.concat([df_wt, df_mt], axis=1)`: columns appended, row labels
unioned, entries absent on either side become missing. -/
def concatTables (wt mt : ExprTable) : ExprTable where
  cols := wt.cols ++ mt.cols
  rows :=
    wt.rows.map (fun r =>
      (r.1, r.2 ++ (lookupRow mt r.1).getD (List.replicate mt.cols.length none)))
    ++ (mt.rows.filter (fun r => (lookupRow wt r.1).isNone)).map (fun r =>
      (r.1, List.replicate wt.cols.length none ++ r.2))

/-- `df.loc[g]`: the row labelled `g`, or a propagated `KeyError g`. -/
def locRow (t : ExprTable) (g : String) : Except Err (List (Option ℚ)) :=
  match lookupRow t g with
  | some r => .ok r
  | none => .error (.keyError g)

/-- The non-missing entries of a row, in order. -/
def nonMissing (row : List (Option ℚ)) : List ℚ :=
  row.filterMap id

/-- `Series.mean()` with the pandas default `skipna=True`: the mean of the
non-missing entries, `NaN` when none exist. -/
def seriesMean (row : List (Option ℚ)) : Option ℚ :=
  let xs := nonMissing row
  if xs.length = 0 then none
  else some (xs.sum / (xs.length : ℚ))

/-- The sample variance (`ddof = 1`) of the non-missing entries of a row;
`NaN` when fewer than two exist, as pandas `Series.std` squares to. -/
def sampleVar (row : List (Option ℚ)) : Option ℚ :=
  let xs := nonMissing row
  if xs.length < 2 then none
  else
    some (((xs.map (fun x => (x - xs.sum / (xs.length : ℚ)) ^ 2)).sum) /
      ((xs.length : ℚ) - 1))

/-- `df.loc[g].mean()` packaged as a record value. -/
def meanValue (row : List (Option ℚ)) : Value :=
  match seriesMean row with
  | some q => .ratV q
  | none => .missing

/-- `df.loc[g].std()` packaged as a record value: the square root of the
sample variance, `NaN` when that is undefined. -/
def stdValue (row : List (Option ℚ)) : Value :=
  match sampleVar row with
  | some v => .sqrtV v
  | none => .missing

/-- The three dicts appended for one gene symbol `g` of the perturbation:
degree lookup never raises (`np.nan` when `g` is not a node), but
`df.loc[g]` raises a `KeyError` when `g` is not a row label. -/
def processGene (es : List (String × String)) (df : ExprTable)
    (pathway treatment gene g : String) : Except Err (List Record) := do
  let rowMean ← locRow df g
  let rowStd ← locRow df g
  pure
    [ { type := "pathway_degree", gene := gene,
        source := pathway ++ " -- " ++ g,
        value := if memGraph es g then .intV (degree es g) else .missing },
      { type := "expression_count_mean", gene := gene,
        source := treatment ++ " -- " ++ g,
        value := meanValue rowMean },
      { type := "expression_count_std", gene := gene,
        source := treatment ++ " -- " ++ g,
        value := stdValue rowStd } ]

/-- `for g in gene_list: tmp.extend([...])`, stopping at the first raised
error. -/
def processGenes (es : List (String × String)) (df : ExprTable)
    (pathway treatment gene : String) :
    List String → Except Err (List Record)
  | [] => .ok []
  | g :: rest => do
    let rs ← processGene es df pathway treatment gene g
    let rest' ← processGenes es df pathway treatment gene rest
    pure (rs ++ rest')

/-- One iteration of the `for dir_ in tqdm(dir_list)` loop: parse the path,
load the three files, build the graph and the concatenated table, and emit
three records per gene symbol. -/
def processDir (fs : FileSystem) (dir_ : String) : Except Err (List Record) := do
  let (pathway, gene, study, treatment, _deconf_param) ← parsePath dir_
  let gene_list := splitChar ',' gene
  let pcsv ← getFile fs.pathwayCsv (pathwayPath pathway)
  let es ← edgesOf pcsv
  let df_wt ← getFile fs.exprCsv (wtPath study treatment)
  let df_mt ← getFile fs.exprCsv (mtPath study gene treatment)
  let df := concatTables df_wt df_mt
  processGenes es df pathway treatment gene gene_list

/-- `read_data(dir_list)`: the accumulated record list over all input
directories (the final `pd.DataFrame(tmp)` keeps this row order); the first
raised error aborts the whole call. -/
def read_data (fs : FileSystem) : List String → Except Err (List Record)
  | [] => .ok []
  | d :: rest => do
    let rs ← processDir fs d
    let rest' ← read_data fs rest
    pure (rs ++ rest')

/-- `pd.DataFrame(tmp)`: the columns are the dict keys in insertion order;
an empty record list gives a frame with no columns at all. -/
structure DataFrame where
  columns : List String
  records : List Record

/-- Build the result frame from the accumulated records. -/
def mkDataFrame (recs : List Record) : DataFrame where
  columns := if recs.isEmpty then [] else ["type", "gene", "source", "value"]
  records := recs

/-- Cell text of a value in the CSV; pandas writes `NaN` as an empty cell.
(Float formatting is abstracted by `toString`; no claim inspects it.) -/
def showValue : Value → String
  | .intV n => toString n
  | .ratV q => toString q
  | .sqrtV q => toString q
  | .missing => ""

/-- The four data cells of one CSV line, in column order. -/
def recordCells (r : Record) : List String :=
  [r.type, r.gene, r.source, showValue r.value]

/-- `df.to_csv(fname, index=False)` as a list of cell rows: the header row
(the column names, with no index column prepended) followed by one row of
cells per record. -/
def toCsvRows (df : DataFrame) : List (List String) :=
  df.columns :: df.records.map recordCells

/-- The output files `main` can produce (the directory made by `mkdir` is
not an output file). -/
inductive OutFile where
  | csv : OutFile
  | degreesPdf : OutFile
  | countsMeanPdf : OutFile
  | countsStdPdf : OutFile
deriving DecidableEq

/-- The outcomes of `main`'s effectful stages: the result of `read_data`,
then success flags for `to_csv` and each of the three
boxplot-and-`savefig` blocks (a flag is `false` when that stage raises). -/
structure RunEnv where
  readRes : Except Err (List Record)
  writeOk : Bool
  plotDegreesOk : Bool
  plotMeanOk : Bool
  plotStdOk : Bool

/-- The output files `main` has completed, in order, when each stage runs
only if every earlier stage succeeded — exactly the statement order of
`main`: `mkdir`, `read_data`, `df.to_csv`, then the three plots saved as
`degrees.pdf`, `counts_mean.pdf`, `counts_std.pdf`. -/
def mainWrites (env : RunEnv) : List OutFile :=
  match env.readRes with
  | .error _ => []
  | .ok _ =>
    if !env.writeOk then []
    else .csv ::
      (if !env.plotDegreesOk then []
       else .degreesPdf ::
         (if !env.plotMeanOk then []
          else .countsMeanPdf ::
            (if !env.plotStdOk then [] else [.countsStdPdf])))

/-- Number of comma-separated gene symbols encoded in an input directory
string (0 when the path does not parse). -/
def geneCount (d : String) : ℕ :=
  match parsePath d with
  | .ok (_, gene, _, _, _) => (splitChar ',' gene).length
  | .error _ => 0

/-! Concrete fixtures: a small filesystem with three studies, used to
instantiate the theorems at explicit inputs.  `Study1` realises the spec's
scenario (edge `GeneX,GeneY`; both count files give `GeneX` the values
`[1,2,3]`), `Study2` perturbs a gene absent from its pathway graph, and
`Study3` lacks the perturbed gene's row in its count tables. -/

/-- `PathwayA.csv` and `PathwayB.csv`: the single edge `GeneX — GeneY`. -/
def exPathwayCsv : PathwayCsv where
  header := ["source", "sink"]
  rows := [["GeneX", "GeneY"]]

/-- Control counts for `Study1`: row `GeneX` with values `[1,2,3]`. -/
def exWt : ExprTable where
  cols := ["s1", "s2", "s3"]
  rows := [("GeneX", [some 1, some 2, some 3])]

/-- Mutant counts for `Study1`: row `GeneX` with values `[1,2,3]`. -/
def exMt : ExprTable where
  cols := ["m1", "m2", "m3"]
  rows := [("GeneX", [some 1, some 2, some 3])]

/-- Control counts for `Study2`: row `GeneZ`. -/
def exWt2 : ExprTable where
  cols := ["c1"]
  rows := [("GeneZ", [some 5])]

/-- Mutant counts for `Study2`: row `GeneZ`. -/
def exMt2 : ExprTable where
  cols := ["c2"]
  rows := [("GeneZ", [some 7])]

/-- Control counts for `Study3`: no row for `GeneQ`. -/
def exWt3 : ExprTable where
  cols := ["c1"]
  rows := [("Other", [some 1])]

/-- Mutant counts for `Study3`: no row for `GeneQ`. -/
def exMt3 : ExprTable where
  cols := ["c2"]
  rows := [("Other", [some 2])]

/-- `PathwayC.csv`: an edge list whose two columns are not named
`source`/`sink`. -/
def exBadCsv : PathwayCsv where
  header := ["from", "to"]
  rows := [["GeneX", "GeneY"]]

/-- The fixture filesystem. -/
def exFS : FileSystem where
  pathwayCsv := fun p =>
    if p = "results/pathways/csv_files/PathwayA.csv" then some exPathwayCsv
    else if p = "results/pathways/csv_files/PathwayB.csv" then some exPathwayCsv
    else if p = "results/pathways/csv_files/PathwayC.csv" then some exBadCsv
    else none
  exprCsv := fun p =>
    if p = "resources/data/Study1/Counts_Ctrl_1.csv" then some exWt
    else if p = "resources/data/Study1/Counts_GeneX_1.csv" then some exMt
    else if p = "resources/data/Study2/Counts_Ctrl_2.csv" then some exWt2
    else if p = "resources/data/Study2/Counts_GeneZ_2.csv" then some exMt2
    else if p = "resources/data/Study3/Counts_Ctrl_1.csv" then some exWt3
    else if p = "resources/data/Study3/Counts_GeneQ_1.csv" then some exMt3
    else none

/-- The spec scenario's input directory. -/
def exDir1 : String := "x/y/PathwayA/GeneX/Study1/1/z"

/-- A directory whose perturbed gene `GeneZ` is not a node of its pathway
graph. -/
def exDir2 : String := "a/b/PathwayB/GeneZ/Study2/2/w"

/-- A directory whose perturbed gene `GeneQ` has no row in the expression
tables. -/
def exDir3 : String := "a/b/PathwayA/GeneQ/Study3/1/w"

/-- A directory whose pathway CSV lacks the `source`/`sink` columns. -/
def exDir4 : String := "a/b/PathwayC/GeneX/Study1/1/w"

/-- The records the code actually produces for `exDir1`: note the standard
deviation is `√(4/5)`, the sample std of `[1,2,3,1,2,3]`. -/
def exRecs1 : List Record :=
  [ { type := "pathway_degree", gene := "GeneX",
      source := "PathwayA -- GeneX", value := .intV 1 },
    { type := "expression_count_mean", gene := "GeneX",
      source := "1 -- GeneX", value := .ratV 2 },
    { type := "expression_count_std", gene := "GeneX",
      source := "1 -- GeneX", value := .sqrtV (4 / 5) } ]

/-- The records produced for `exDir2`: `GeneZ` is no node of its pathway
graph, so its degree is missing; its expression row is `[5, 7]`. -/
def exRecs2 : List Record :=
  [ { type := "pathway_degree", gene := "GeneZ",
      source := "PathwayB -- GeneZ", value := .missing },
    { type := "expression_count_mean", gene := "GeneZ",
      source := "2 -- GeneZ", value := .ratV 6 },
    { type := "expression_count_std", gene := "GeneZ",
      source := "2 -- GeneZ", value := .sqrtV 2 } ]

/-! ### Helper lemmas -/

@[simp]
theorem bindOk (a : α) (f : α → Except Err β) :
    (Except.ok a >>= f : Except Err β) = f a := rfl

@[simp]
theorem bindError (e : Err) (f : α → Except Err β) :
    ((Except.error e : Except Err α) >>= f) = .error e := rfl

theorem bind_eq_ok {x : Except Err α} {f : α → Except Err β} {b : β}
    (h : (x >>= f) = .ok b) : ∃ a, x = .ok a ∧ f a = .ok b := by
  cases x with
  | error e => simp at h
  | ok a => exact ⟨a, rfl, by simpa using h⟩

theorem splitCharAux_length_pos (sep : Char) (cs acc : List Char) :
    1 ≤ (splitCharAux sep cs acc).length := by
  induction cs generalizing acc with
  | nil => simp [splitCharAux]
  | cons c cs ih =>
    by_cases h : c = sep
    · simp [splitCharAux, h]
    · simpa [splitCharAux, h] using ih (c :: acc)

theorem splitChar_length_pos (sep : Char) (s : String) :
    1 ≤ (splitChar sep s).length :=
  splitCharAux_length_pos sep s.data []

theorem parseSegs_append (pre : List String) (p g s t c : String) :
    parseSegs (pre ++ [p, g, s, t, c]) = .ok (p, g, s, t, c) := by
  simp [parseSegs, List.reverse_append]

theorem parseSegs_short (l : List String) (h : l.length < 5) :
    parseSegs l = .error .unpackError := by
  have h' : l.reverse.length < 5 := by simpa using h
  unfold parseSegs
  rcases hr : l.reverse with _ | ⟨a, _ | ⟨b, _ | ⟨c, _ | ⟨d, _ | ⟨e, rest⟩⟩⟩⟩⟩ <;>
    first
      | rfl
      | (rw [hr] at h'; simp only [List.length_cons] at h'; omega)

/-- C5: The path parser keeps the last five slash-separated segments as
`pathway, gene, study, treatment, deconf_param`, splits the gene segment on
`,` into at least one gene symbol, and propagates an unpacking error when
the string has fewer than five slash-separated segments. -/
theorem path_parser_last_five (d : String) :
    (∀ pre p g s t c, splitChar '/' d = pre ++ [p, g, s, t, c] →
        parsePath d = .ok (p, g, s, t, c) ∧
        1 ≤ (splitChar ',' g).length) ∧
    ((splitChar '/' d).length < 5 → parsePath d = .error .unpackError) := by
  constructor
  · intro pre p g s t c h
    refine ⟨?_, splitChar_length_pos ',' g⟩
    rw [parsePath, h]
    exact parseSegs_append pre p g s t c
  · intro h
    rw [parsePath]
    exact parseSegs_short _ h

/-- C5 witness: the scenario path parses into its last five segments, and a
three-segment path fails with the unpacking error. -/
theorem path_parser_last_five_witness :
    parsePath "x/y/PathwayA/GeneX/Study1/1/z" =
      .ok ("PathwayA", "GeneX", "Study1", "1", "z") ∧
    parsePath "a/b" = .error .unpackError := by
  constructor
  · exact ((path_parser_last_five "x/y/PathwayA/GeneX/Study1/1/z").1
      ["x", "y"] "PathwayA" "GeneX" "Study1" "1" "z"
      (by with_unfolding_all rfl)).1
  · exact (path_parser_last_five "a/b").2 (by decide)

@[simp]
theorem pureOk (a : α) : (pure a : Except Err α) = .ok a := rfl

theorem processGene_ok_iff {es : List (String × String)} {df : ExprTable}
    {pathway treatment gene g : String} {rs : List Record} :
    processGene es df pathway treatment gene g = .ok rs ↔
    ∃ row, lookupRow df g = some row ∧
      rs = [ { type := "pathway_degree", gene := gene,
               source := pathway ++ " -- " ++ g,
               value := if memGraph es g then .intV (degree es g)
                        else .missing },
             { type := "expression_count_mean", gene := gene,
               source := treatment ++ " -- " ++ g,
               value := meanValue row },
             { type := "expression_count_std", gene := gene,
               source := treatment ++ " -- " ++ g,
               value := stdValue row } ] := by
  unfold processGene locRow
  cases hr : lookupRow df g with
  | none => simp
  | some row =>
    simp only [bindOk, pureOk, Except.ok.injEq, Option.some.injEq]
    constructor
    · intro h
      exact ⟨row, rfl, h.symm⟩
    · rintro ⟨row', hr', h⟩
      subst hr'
      exact h.symm

theorem processGene_err {es : List (String × String)} {df : ExprTable}
    {pathway treatment gene g : String} (h : lookupRow df g = none) :
    processGene es df pathway treatment gene g = .error (.keyError g) := by
  simp [processGene, locRow, h]

theorem processGenes_ok_length {es : List (String × String)} {df : ExprTable}
    {pathway treatment gene : String} :
    ∀ {l : List String} {rs : List Record},
      processGenes es df pathway treatment gene l = .ok rs →
      rs.length = 3 * l.length := by
  intro l
  induction l with
  | nil =>
    intro rs h
    simp [processGenes] at h
    simp [← h]
  | cons g gs ih =>
    intro rs h
    unfold processGenes at h
    obtain ⟨a, ha, h2⟩ := bind_eq_ok h
    obtain ⟨b, hb, h3⟩ := bind_eq_ok h2
    obtain ⟨row, hrow, hae⟩ := processGene_ok_iff.mp ha
    have hbl := ih hb
    simp at h3
    subst h3
    simp [hae, List.length_append, hbl]
    ring

theorem processDir_ok_length {fs : FileSystem} {d : String} {rs : List Record}
    (h : processDir fs d = .ok rs) : rs.length = 3 * geneCount d := by
  unfold processDir at h
  obtain ⟨⟨pathway, gene, study, treatment, dp⟩, hp, h2⟩ := bind_eq_ok h
  obtain ⟨pcsv, hpc, h3⟩ := bind_eq_ok h2
  obtain ⟨es, hes, h4⟩ := bind_eq_ok h3
  obtain ⟨wt, hwt, h5⟩ := bind_eq_ok h4
  obtain ⟨mt, hmt, h6⟩ := bind_eq_ok h5
  have hlen := processGenes_ok_length h6
  simp [geneCount, hp, hlen]

/-- C1: For every list of input directories on which `read_data` succeeds,
the returned table has exactly `3 ×` (total number of comma-separated gene
symbols across all directories' gene fields) records, three per gene symbol
per directory. -/
theorem read_data_record_count :
    (∀ (fs : FileSystem) (d : String) (rs : List Record),
        processDir fs d = .ok rs → rs.length = 3 * geneCount d) ∧
    (∀ (fs : FileSystem) (dirs : List String) (recs : List Record),
        read_data fs dirs = .ok recs →
        recs.length = 3 * (dirs.map geneCount).sum) := by
  refine ⟨fun fs d rs h => processDir_ok_length h, fun fs dirs => ?_⟩
  induction dirs with
  | nil =>
    intro recs h
    simp [read_data] at h
    simp [← h]
  | cons d ds ih =>
    intro recs h
    unfold read_data at h
    obtain ⟨a, ha, h2⟩ := bind_eq_ok h
    obtain ⟨b, hb, h3⟩ := bind_eq_ok h2
    have hal := processDir_ok_length ha
    have hbl := ih b hb
    simp at h3
    subst h3
    simp [List.length_append, hal, hbl]
    ring

/-- C1 witness: on the two-directory fixture, `read_data` succeeds with
`6 = 3 × 2` records. -/
theorem read_data_record_count_witness :
    read_data exFS [exDir1, exDir2] = .ok (exRecs1 ++ exRecs2) ∧
    (exRecs1 ++ exRecs2).length = 3 * ([exDir1, exDir2].map geneCount).sum := by
  have h : read_data exFS [exDir1, exDir2] = .ok (exRecs1 ++ exRecs2) := by
    with_unfolding_all rfl
  exact ⟨h, read_data_record_count.2 exFS [exDir1, exDir2] _ h⟩

theorem getFile_ok {α : Type} {files : String → Option α} {path : String}
    {x : α} (h : getFile files path = .ok x) : files path = some x := by
  unfold getFile at h
  cases hf : files path with
  | none => rw [hf] at h; simp at h
  | some y => rw [hf] at h; simp at h; rw [h]

theorem processDir_ok_elim {fs : FileSystem} {d : String} {recs : List Record}
    (h : processDir fs d = .ok recs) :
    ∃ pathway gene study treatment dp pcsv es wt mt,
      parsePath d = .ok (pathway, gene, study, treatment, dp) ∧
      fs.pathwayCsv (pathwayPath pathway) = some pcsv ∧
      edgesOf pcsv = .ok es ∧
      fs.exprCsv (wtPath study treatment) = some wt ∧
      fs.exprCsv (mtPath study gene treatment) = some mt ∧
      processGenes es (concatTables wt mt) pathway treatment gene
        (splitChar ',' gene) = .ok recs := by
  unfold processDir at h
  obtain ⟨⟨pathway, gene, study, treatment, dp⟩, hp, h2⟩ := bind_eq_ok h
  obtain ⟨pcsv, hpc, h3⟩ := bind_eq_ok h2
  obtain ⟨es, hes, h4⟩ := bind_eq_ok h3
  obtain ⟨wt, hwt, h5⟩ := bind_eq_ok h4
  obtain ⟨mt, hmt, h6⟩ := bind_eq_ok h5
  exact ⟨pathway, gene, study, treatment, dp, pcsv, es, wt, mt, hp,
    getFile_ok hpc, hes, getFile_ok hwt, getFile_ok hmt, h6⟩

theorem processGenes_ok_mem {es : List (String × String)} {df : ExprTable}
    {pathway treatment gene : String} :
    ∀ {l : List String} {rs : List Record},
      processGenes es df pathway treatment gene l = .ok rs →
      ∀ g ∈ l, ∃ row, lookupRow df g = some row ∧
        ({ type := "pathway_degree", gene := gene,
           source := pathway ++ " -- " ++ g,
           value := if memGraph es g then .intV (degree es g)
                    else .missing } : Record) ∈ rs ∧
        ({ type := "expression_count_mean", gene := gene,
           source := treatment ++ " -- " ++ g,
           value := meanValue row } : Record) ∈ rs ∧
        ({ type := "expression_count_std", gene := gene,
           source := treatment ++ " -- " ++ g,
           value := stdValue row } : Record) ∈ rs := by
  intro l
  induction l with
  | nil => intro rs h g hg; simp at hg
  | cons g0 gs ih =>
    intro rs h g hg
    unfold processGenes at h
    obtain ⟨a, ha, h2⟩ := bind_eq_ok h
    obtain ⟨b, hb, h3⟩ := bind_eq_ok h2
    simp at h3
    subst h3
    rcases List.mem_cons.mp hg with hg0 | hgs
    · subst hg0
      obtain ⟨row, hrow, hae⟩ := processGene_ok_iff.mp ha
      subst hae
      exact ⟨row, hrow, by simp, by simp, by simp⟩
    · obtain ⟨row, hrow, hm1, hm2, hm3⟩ := ih hb g hgs
      exact ⟨row, hrow, List.mem_append_right a hm1,
        List.mem_append_right a hm2, List.mem_append_right a hm3⟩

/-- C2: Whenever `processDir` succeeds on a directory, each gene symbol `g`
of its perturbation receives a `pathway_degree` record whose value is the
graph degree of `g` when `g` is a node of the pathway graph, and the missing
value (no error is raised) when `g` is absent from the graph. -/
theorem pathway_degree_record_value (fs : FileSystem)
    (d pathway gene study treatment dp : String) (csv : PathwayCsv)
    (es : List (String × String)) (recs : List Record) (g : String)
    (hp : parsePath d = .ok (pathway, gene, study, treatment, dp))
    (hcsv : fs.pathwayCsv (pathwayPath pathway) = some csv)
    (hes : edgesOf csv = .ok es)
    (hok : processDir fs d = .ok recs)
    (hg : g ∈ splitChar ',' gene) :
    ({ type := "pathway_degree", gene := gene,
       source := pathway ++ " -- " ++ g,
       value := if memGraph es g then .intV (degree es g)
                else .missing } : Record) ∈ recs := by
  obtain ⟨pathway', gene', study', treatment', dp', pcsv', es', wt', mt',
    hp', hcsv', hes', hwt', hmt', hgenes⟩ := processDir_ok_elim hok
  rw [hp] at hp'
  simp only [Except.ok.injEq, Prod.mk.injEq] at hp'
  obtain ⟨rfl, rfl, rfl, rfl, rfl⟩ := hp'
  rw [hcsv] at hcsv'
  simp only [Option.some.injEq] at hcsv'
  subst hcsv'
  rw [hes] at hes'
  simp only [Except.ok.injEq] at hes'
  subst hes'
  obtain ⟨row, hrow, hm1, hm2, hm3⟩ := processGenes_ok_mem hgenes g hg
  exact hm1

/-- C2 witness: `GeneZ` is absent from its pathway graph, and its degree
record carries the missing value inside a successful run. -/
theorem pathway_degree_record_value_witness :
    processDir exFS exDir2 = .ok exRecs2 ∧
    ({ type := "pathway_degree", gene := "GeneZ",
       source := "PathwayB -- GeneZ",
       value := if memGraph [("GeneX", "GeneY")] "GeneZ"
                then .intV (degree [("GeneX", "GeneY")] "GeneZ")
                else .missing } : Record) ∈ exRecs2 := by
  refine ⟨by with_unfolding_all rfl, ?_⟩
  exact pathway_degree_record_value exFS exDir2 "PathwayB" "GeneZ" "Study2"
    "2" "w" exPathwayCsv [("GeneX", "GeneY")] exRecs2 "GeneZ"
    (by with_unfolding_all rfl) (by with_unfolding_all rfl)
    (by with_unfolding_all rfl) (by with_unfolding_all rfl)
    (by decide)

/-- C6: Whenever `processDir` succeeds, the `expression_count_mean` and
`expression_count_std` records emitted for a gene symbol `g` are computed
from one and the same row of the concatenated control/mutant table. -/
theorem mean_std_identical_row (fs : FileSystem)
    (d pathway gene study treatment dp : String) (wt mt : ExprTable)
    (recs : List Record) (g : String)
    (hp : parsePath d = .ok (pathway, gene, study, treatment, dp))
    (hwt : fs.exprCsv (wtPath study treatment) = some wt)
    (hmt : fs.exprCsv (mtPath study gene treatment) = some mt)
    (hok : processDir fs d = .ok recs)
    (hg : g ∈ splitChar ',' gene) :
    ∃ row, lookupRow (concatTables wt mt) g = some row ∧
      ({ type := "expression_count_mean", gene := gene,
         source := treatment ++ " -- " ++ g,
         value := meanValue row } : Record) ∈ recs ∧
      ({ type := "expression_count_std", gene := gene,
         source := treatment ++ " -- " ++ g,
         value := stdValue row } : Record) ∈ recs := by
  obtain ⟨pathway', gene', study', treatment', dp', pcsv', es', wt', mt',
    hp', hcsv', hes', hwt', hmt', hgenes⟩ := processDir_ok_elim hok
  rw [hp] at hp'
  simp only [Except.ok.injEq, Prod.mk.injEq] at hp'
  obtain ⟨rfl, rfl, rfl, rfl, rfl⟩ := hp'
  rw [hwt] at hwt'
  simp only [Option.some.injEq] at hwt'
  subst hwt'
  rw [hmt] at hmt'
  simp only [Option.some.injEq] at hmt'
  subst hmt'
  obtain ⟨row, hrow, hm1, hm2, hm3⟩ := processGenes_ok_mem hgenes g hg
  exact ⟨row, hrow, hm2, hm3⟩

/-- C6 witness: on the scenario directory the mean and std records of
`GeneX` are both computed from the single concatenated row of `GeneX`. -/
theorem mean_std_identical_row_witness :
    processDir exFS exDir1 = .ok exRecs1 ∧
    ∃ row, lookupRow (concatTables exWt exMt) "GeneX" = some row ∧
      ({ type := "expression_count_mean", gene := "GeneX",
         source := "1 -- GeneX",
         value := meanValue row } : Record) ∈ exRecs1 ∧
      ({ type := "expression_count_std", gene := "GeneX",
         source := "1 -- GeneX",
         value := stdValue row } : Record) ∈ exRecs1 := by
  refine ⟨by with_unfolding_all rfl, ?_⟩
  exact mean_std_identical_row exFS exDir1 "PathwayA" "GeneX" "Study1" "1"
    "z" exWt exMt exRecs1 "GeneX"
    (by with_unfolding_all rfl) (by with_unfolding_all rfl)
    (by with_unfolding_all rfl) (by with_unfolding_all rfl) (by decide)

theorem processDir_eq {fs : FileSystem}
    {d pathway gene study treatment dp : String} {csv : PathwayCsv}
    {es : List (String × String)} {wt mt : ExprTable}
    (hp : parsePath d = .ok (pathway, gene, study, treatment, dp))
    (hcsv : fs.pathwayCsv (pathwayPath pathway) = some csv)
    (hes : edgesOf csv = .ok es)
    (hwt : fs.exprCsv (wtPath study treatment) = some wt)
    (hmt : fs.exprCsv (mtPath study gene treatment) = some mt) :
    processDir fs d =
      processGenes es (concatTables wt mt) pathway treatment gene
        (splitChar ',' gene) := by
  unfold processDir
  rw [hp]
  simp only [bindOk, getFile, hcsv, hes, hwt, hmt]

theorem processGenes_missing {es : List (String × String)} {df : ExprTable}
    {pathway treatment gene : String} :
    ∀ {l : List String}, (∃ g ∈ l, lookupRow df g = none) →
      ∃ g', g' ∈ l ∧ lookupRow df g' = none ∧
        processGenes es df pathway treatment gene l =
          .error (.keyError g') := by
  intro l
  induction l with
  | nil => rintro ⟨g, hg, _⟩; simp at hg
  | cons g0 gs ih =>
    rintro ⟨g, hg, hnone⟩
    cases hr : lookupRow df g0 with
    | none =>
      refine ⟨g0, List.mem_cons_self g0 gs, hr, ?_⟩
      unfold processGenes
      rw [processGene_err hr]
      simp
    | some row =>
      have hgs : g ∈ gs := by
        rcases List.mem_cons.mp hg with h0 | h0
        · subst h0; rw [hr] at hnone; exact absurd hnone (by simp)
        · exact h0
      obtain ⟨g', hmem, hnone', herr⟩ := ih ⟨g, hgs, hnone⟩
      refine ⟨g', List.mem_cons_of_mem g0 hmem, hnone', ?_⟩
      unfold processGenes
      rw [processGene_ok_iff.mpr ⟨row, hr, rfl⟩]
      simp [herr]

/-- C4: If a gene symbol of the perturbation is not a row label of the
concatenated expression table, `read_data` fails with a propagated
key-lookup error on such a gene (it emits no record with a missing
mean/std for it). -/
theorem missing_expression_row_key_error (fs : FileSystem)
    (d pathway gene study treatment dp : String) (csv : PathwayCsv)
    (es : List (String × String)) (wt mt : ExprTable) (g : String)
    (hp : parsePath d = .ok (pathway, gene, study, treatment, dp))
    (hcsv : fs.pathwayCsv (pathwayPath pathway) = some csv)
    (hes : edgesOf csv = .ok es)
    (hwt : fs.exprCsv (wtPath study treatment) = some wt)
    (hmt : fs.exprCsv (mtPath study gene treatment) = some mt)
    (hg : g ∈ splitChar ',' gene)
    (hrow : lookupRow (concatTables wt mt) g = none) :
    ∃ g', g' ∈ splitChar ',' gene ∧
      lookupRow (concatTables wt mt) g' = none ∧
      read_data fs [d] = .error (.keyError g') := by
  obtain ⟨g', hmem, hnone, herr⟩ :=
    @processGenes_missing es (concatTables wt mt) pathway treatment gene
      (splitChar ',' gene) ⟨g, hg, hrow⟩
  refine ⟨g', hmem, hnone, ?_⟩
  unfold read_data
  rw [processDir_eq hp hcsv hes hwt hmt, herr]
  simp

/-- C4 witness: `GeneQ` has no row in `Study3`'s concatenated counts, and
`read_data` on its directory fails with `KeyError GeneQ`. -/
theorem missing_expression_row_key_error_witness :
    read_data exFS [exDir3] = .error (.keyError "GeneQ") ∧
    ∃ g', g' ∈ splitChar ',' "GeneQ" ∧
      lookupRow (concatTables exWt3 exMt3) g' = none ∧
      read_data exFS [exDir3] = .error (.keyError g') := by
  refine ⟨by with_unfolding_all rfl, ?_⟩
  exact missing_expression_row_key_error exFS exDir3 "PathwayA" "GeneQ"
    "Study3" "1" "w" exPathwayCsv [("GeneX", "GeneY")] exWt3 exMt3 "GeneQ"
    (by with_unfolding_all rfl) (by with_unfolding_all rfl)
    (by with_unfolding_all rfl) (by with_unfolding_all rfl)
    (by with_unfolding_all rfl) (by decide) (by with_unfolding_all rfl)

theorem getCol_not_mem {csv : PathwayCsv} {name : String}
    (h : name ∉ csv.header) : getCol csv name = .error (.keyError name) := by
  unfold getCol
  have hf : csv.header.findIdx? (fun x => x = name) = none := by
    rw [List.findIdx?_eq_none_iff]
    intro x hx
    simp
    rintro rfl
    exact h hx
  rw [hf]

theorem getCol_error_eq {csv : PathwayCsv} {name : String} {e : Err}
    (h : getCol csv name = .error e) : e = .keyError name := by
  unfold getCol at h
  cases hf : csv.header.findIdx? (fun x => x = name) <;> rw [hf] at h <;>
    simp at h
  exact h.symm

/-- C9: Building the pathway graph requires the edge-list CSV to have
columns named exactly `source` and `sink`: if either is absent the run
fails with a propagated key error on that column name, and the graph
depends on nothing but those two columns. -/
theorem edgelist_source_sink_columns :
    (∀ (fs : FileSystem) (d pathway gene study treatment dp : String)
        (csv : PathwayCsv),
        parsePath d = .ok (pathway, gene, study, treatment, dp) →
        fs.pathwayCsv (pathwayPath pathway) = some csv →
        ("source" ∉ csv.header ∨ "sink" ∉ csv.header) →
        ∃ k, (k = "source" ∨ k = "sink") ∧
          read_data fs [d] = .error (.keyError k)) ∧
    (∀ csvA csvB : PathwayCsv,
        getCol csvA "source" = getCol csvB "source" →
        getCol csvA "sink" = getCol csvB "sink" →
        edgesOf csvA = edgesOf csvB) := by
  constructor
  · intro fs d pathway gene study treatment dp csv hp hcsv hmiss
    have hread : ∀ e : Err, edgesOf csv = .error e →
        read_data fs [d] = .error e := by
      intro e he
      unfold read_data processDir
      rw [hp]
      simp only [bindOk, getFile, hcsv, he, bindError]
    cases hgc : getCol csv "source" with
    | error e =>
      refine ⟨"source", Or.inl rfl, ?_⟩
      have he : edgesOf csv = .error (.keyError "source") := by
        unfold edgesOf
        rw [hgc, getCol_error_eq hgc]
        simp
      exact hread _ he
    | ok ss =>
      have hsink : "sink" ∉ csv.header := by
        rcases hmiss with hs | hs
        · rw [getCol_not_mem hs] at hgc
          exact absurd hgc (by simp)
        · exact hs
      refine ⟨"sink", Or.inr rfl, ?_⟩
      have he : edgesOf csv = .error (.keyError "sink") := by
        unfold edgesOf
        rw [hgc, getCol_not_mem hsink]
        simp
      exact hread _ he
  · intro csvA csvB hs hk
    unfold edgesOf
    rw [hs, hk]

/-- C9 witness: `PathwayC.csv` has columns `from,to`, so the run on its
directory fails with a key error on a required column name; and adding a
third column to the fixture edge list leaves the graph unchanged. -/
theorem edgelist_source_sink_columns_witness :
    (∃ k, (k = "source" ∨ k = "sink") ∧
      read_data exFS [exDir4] = .error (.keyError k)) ∧
    edgesOf { header := ["source", "sink", "weight"],
              rows := [["GeneX", "GeneY", "3"]] } =
      edgesOf exPathwayCsv := by
  constructor
  · exact edgelist_source_sink_columns.1 exFS exDir4 "PathwayC" "GeneX"
      "Study1" "1" "w" exBadCsv (by with_unfolding_all rfl)
      (by with_unfolding_all rfl) (by decide)
  · exact edgelist_source_sink_columns.2
      { header := ["source", "sink", "weight"],
        rows := [["GeneX", "GeneY", "3"]] } exPathwayCsv
      (by with_unfolding_all rfl) (by with_unfolding_all rfl)

/-- C10: Row statistics follow the numeric library's defaults: mean and
standard deviation are computed over exactly the non-missing entries of the
row (inserting or removing missing entries changes nothing), the mean is
the sum over the count of the non-missing entries, the standard deviation
is the sample one with divisor `n - 1`, and a row with no non-missing entry
(for the mean) or fewer than two (for the std) yields the missing value
rather than an error. -/
theorem row_statistics_defaults :
    (∀ rowA rowB : List (Option ℚ), nonMissing rowA = nonMissing rowB →
        meanValue rowA = meanValue rowB ∧ stdValue rowA = stdValue rowB) ∧
    (∀ row : List (Option ℚ), 1 ≤ (nonMissing row).length →
        meanValue row =
          .ratV ((nonMissing row).sum / ((nonMissing row).length : ℚ))) ∧
    (∀ row : List (Option ℚ), 2 ≤ (nonMissing row).length →
        stdValue row =
          .sqrtV (((nonMissing row).map (fun x =>
              (x - (nonMissing row).sum / ((nonMissing row).length : ℚ)) ^ 2)).sum /
            (((nonMissing row).length : ℚ) - 1))) ∧
    (∀ row : List (Option ℚ), nonMissing row = [] →
        meanValue row = .missing) ∧
    (∀ row : List (Option ℚ), (nonMissing row).length < 2 →
        stdValue row = .missing) := by
  refine ⟨?_, ?_, ?_, ?_, ?_⟩
  · intro rowA rowB h
    constructor
    · unfold meanValue seriesMean
      rw [h]
    · unfold stdValue sampleVar
      rw [h]
  · intro row h
    unfold meanValue seriesMean
    have : ¬((nonMissing row).length = 0) := by omega
    simp only [this, if_false]
  · intro row h
    unfold stdValue sampleVar
    have : ¬((nonMissing row).length < 2) := by omega
    simp only [this, if_false]
  · intro row h
    unfold meanValue seriesMean
    simp [h]
  · intro row h
    unfold stdValue sampleVar
    simp only [h, if_true, if_pos h]

/-- C10 witness: a row with an interior missing entry has the same mean and
std as the row without it; the two-entry row `[1, 2]` has mean `3/2` and
std `√(1/2)` (divisor `n - 1 = 1`); the empty and singleton rows give
missing values. -/
theorem row_statistics_defaults_witness :
    (meanValue [some 1, none, some 2] = meanValue [some 1, some 2] ∧
      stdValue [some 1, none, some 2] = stdValue [some 1, some 2]) ∧
    meanValue [some 1, none, some 2] =
      .ratV ((nonMissing [some 1, none, some 2]).sum /
        ((nonMissing [some 1, none, some 2]).length : ℚ)) ∧
    stdValue [some 1, none, some 2] =
      .sqrtV (((nonMissing [some 1, none, some 2]).map (fun x =>
          (x - (nonMissing [some 1, none, some 2]).sum /
            ((nonMissing [some 1, none, some 2]).length : ℚ)) ^ 2)).sum /
        (((nonMissing [some 1, none, some 2]).length : ℚ) - 1)) ∧
    meanValue ([] : List (Option ℚ)) = .missing ∧
    stdValue [some (1 : ℚ)] = .missing := by
  refine ⟨?_, ?_, ?_, ?_, ?_⟩
  · exact row_statistics_defaults.1 [some 1, none, some 2] [some 1, some 2]
      (by with_unfolding_all rfl)
  · exact row_statistics_defaults.2.1 [some 1, none, some 2] (by decide)
  · exact row_statistics_defaults.2.2.1 [some 1, none, some 2] (by decide)
  · exact row_statistics_defaults.2.2.2.1 [] (by with_unfolding_all rfl)
  · exact row_statistics_defaults.2.2.2.2 [some 1] (by decide)

/-- C3 counterexample: on the spec scenario (`PathwayA.csv` holding the
edge `GeneX,GeneY`, both count files holding a `GeneX` row `[1,2,3]`) the
code's std record carries `√(4/5)` — the sample standard deviation of the
six concatenated entries `[1,2,3,1,2,3]` — which is not the claimed `1.0`.
-/
theorem scenario_std_is_not_one :
    read_data exFS [exDir1] = .ok exRecs1 ∧
    exRecs1.getLast? = some ({ type := "expression_count_std",
                               gene := "GeneX", source := "1 -- GeneX",
                               value := .sqrtV (4 / 5) } : Record) ∧
    Value.interp (.sqrtV (4 / 5)) ≠ some 1 := by
  refine ⟨by with_unfolding_all rfl, by with_unfolding_all rfl, ?_⟩
  intro h
  simp only [Value.interp, Option.some.injEq] at h
  rw [Real.sqrt_eq_one] at h
  norm_num at h

/-- C3 (amended): the scenario directory yields exactly the three records
`{pathway_degree, GeneX, "PathwayA -- GeneX", 1}`,
`{expression_count_mean, GeneX, "1 -- GeneX", 2.0}` and
`{expression_count_std, GeneX, "1 -- GeneX", √(4/5)}` — the std being the
sample standard deviation of the six concatenated entries, not `1.0`. -/
theorem scenario_records :
    read_data exFS [exDir1] = .ok exRecs1 ∧
    exRecs1.map (fun r => (r.type, r.gene, r.source, r.value.interp)) =
      [("pathway_degree", "GeneX", "PathwayA -- GeneX", some (1 : ℝ)),
       ("expression_count_mean", "GeneX", "1 -- GeneX", some (2 : ℝ)),
       ("expression_count_std", "GeneX", "1 -- GeneX",
         some (Real.sqrt (4 / 5)))] := by
  refine ⟨by with_unfolding_all rfl, ?_⟩
  simp only [exRecs1, List.map_cons, List.map_nil, Value.interp]
  norm_num

/-- C7 counterexample: with an empty directory list `read_data` produces no
records, `pd.DataFrame([])` has no columns, and the written CSV's header
row is empty instead of `type,gene,source,value`. -/
theorem empty_run_csv_has_no_columns :
    read_data exFS [] = .ok [] ∧
    (toCsvRows (mkDataFrame [])).head? = some [] ∧
    (toCsvRows (mkDataFrame [])).head? ≠
      some ["type", "gene", "source", "value"] := by
  refine ⟨rfl, rfl, ?_⟩
  decide

/-- C7 (amended): whenever at least one record was produced, the output CSV
starts with the header `type,gene,source,value` (in that order) and each
subsequent row holds exactly the four data cells of one record — no index
column is prepended; with zero records the header row is empty. -/
theorem output_csv_columns (recs : List Record) (h : recs ≠ []) :
    toCsvRows (mkDataFrame recs) =
      ["type", "gene", "source", "value"] :: recs.map recordCells ∧
    ∀ r : Record, (recordCells r).length = 4 := by
  constructor
  · simp [toCsvRows, mkDataFrame, h]
  · intro r
    rfl

/-- C7 (amended) witness: the scenario records give exactly the four-column
header and one four-cell row per record. -/
theorem output_csv_columns_witness :
    exRecs1 ≠ [] ∧
    toCsvRows (mkDataFrame exRecs1) =
      ["type", "gene", "source", "value"] :: exRecs1.map recordCells := by
  have h : exRecs1 ≠ [] := by simp [exRecs1]
  exact ⟨h, (output_csv_columns exRecs1 h).1⟩

/-- C8: In `main` the CSV is written before any plot: every reachable
output state either contains no file at all or starts with the CSV, the
state with nothing written is reached when `read_data` fails, and a failure
in the middle of plotting leaves the CSV and the already-saved plots (here
`degrees.pdf`) on disk. -/
theorem csv_written_before_plots (env : RunEnv) :
    (mainWrites env = [] ∨ (mainWrites env).head? = some .csv) ∧
    mainWrites ⟨.error .unpackError, true, true, true, true⟩ = [] ∧
    mainWrites ⟨.ok [], true, true, false, true⟩ = [.csv, .degreesPdf] := by
  refine ⟨?_, rfl, rfl⟩
  cases hr : env.readRes with
  | error e => left; simp [mainWrites, hr]
  | ok recs =>
    cases hw : env.writeOk with
    | false => left; simp [mainWrites, hr, hw]
    | true => right; simp [mainWrites, hr, hw]

end AdditionalStatistics
